import Mathlib

/-!
Shallow embedding of the two CLI scripts of the S3-signed-url-upload
repository: `generate-presigned-download-url.py` and
`generate-presigned-upload-url.py`.

Each script is a straight-line program: parse arguments, validate the
expiration, optionally check credentials and object existence through the
storage SDK, invoke the URL-signing operation, and print the result.
The SDK is the external collaborator; its responses are modelled as an
explicit environment value (`DlEnv` / `UpEnv`).  Running a script yields a
`RunResult`: the ordered list of printed output events (with their stream),
the ordered list of SDK API calls performed, and the process exit code.
-/

set_option linter.unusedVariables false

set_option linter.unnecessarySeqFocus false

/-- Output stream of a print event: standard output or standard error. -/
inductive OutStream where
  | stdout
  | stderr
deriving DecidableEq, Repr

/-- One print event: a chunk of text written to a stream (each Python
`print` writes its message followed by a newline). -/
structure OutEvent where
  stream : OutStream
  text : String
deriving DecidableEq, Repr

/-- An API call made to the storage collaborator, with the parameters the
scripts pass (for the signing calls, the `Params` dict is flattened into
the constructor: bucket, key, the optional extra parameter, `ExpiresIn`). -/
inductive ApiCall where
  | getCallerIdentity
  | headObject (bucket key : String)
  | signGet (bucket key : String) (responseContentDisposition : Option String) (expiresIn : Int)
  | signPut (bucket key : String) (contentType : Option String) (expiresIn : Int)
deriving DecidableEq, Repr

/-- ANSI color codes from the scripts' `Colors` class. -/
def Colors.RED : String := "\x1b[0;31m"

def Colors.GREEN : String := "\x1b[0;32m"

def Colors.YELLOW : String := "\x1b[1;33m"

def Colors.BLUE : String := "\x1b[0;34m"

def Colors.NC : String := "\x1b[0m"

/-- Python `print(message)`: message plus newline on stdout. -/
def printLine (m : String) : OutEvent := ⟨OutStream.stdout, m ++ "\n"⟩

/-- `print_error`: red message on stderr. -/
def print_error (m : String) : OutEvent :=
  ⟨OutStream.stderr, Colors.RED ++ m ++ Colors.NC ++ "\n"⟩

/-- `print_success`: green message on stdout. -/
def print_success (m : String) : OutEvent :=
  ⟨OutStream.stdout, Colors.GREEN ++ m ++ Colors.NC ++ "\n"⟩

/-- `print_warning`: yellow message on stdout. -/
def print_warning (m : String) : OutEvent :=
  ⟨OutStream.stdout, Colors.YELLOW ++ m ++ Colors.NC ++ "\n"⟩

/-- `print_info`: blue message on stdout. -/
def print_info (m : String) : OutEvent :=
  ⟨OutStream.stdout, Colors.BLUE ++ m ++ Colors.NC ++ "\n"⟩

/-- Outcome of the `sts.get_caller_identity()` call as seen by
`check_aws_credentials`: a successful identity document, a
`NoCredentialsError`, a `ClientError` (with its string rendering), or any
other exception. -/
inductive CredResult where
  | ok (account userId arn : String)
  | noCredentials
  | clientError (eStr : String)
  | err (eStr : String)
deriving DecidableEq, Repr

/-- Outcome of an `s3.head_object` call: a response dict (fields that the
scripts read, each optional because the code uses `.get` with defaults), a
`ClientError` carrying the optional `Error.Code` field and the exception's
string rendering, or any other exception. -/
inductive HeadResult where
  | ok (contentLength : Option Nat) (contentType : Option String) (lastModified : Option String)
  | clientError (code : Option String) (eStr : String)
  | err (eStr : String)
deriving DecidableEq, Repr

/-- Outcome of an `s3.generate_presigned_url` call: the signed URL, a
`ClientError` carrying the optional `Error.Code` and `Error.Message`
fields plus the exception's string rendering, or any other exception. -/
inductive SignResult where
  | ok (url : String)
  | clientError (code message : Option String) (eStr : String)
  | err (eStr : String)
deriving DecidableEq, Repr

/-- Result of a helper that prints, calls the SDK, and returns a Bool. -/
structure EffBool where
  events : List OutEvent
  calls : List ApiCall
  ret : Bool
deriving DecidableEq, Repr

/-- Result of a helper that prints, calls the SDK, and returns an optional
string. -/
structure EffStr where
  events : List OutEvent
  calls : List ApiCall
  ret : Option String
deriving DecidableEq, Repr

/-- Result of one script run: printed events, SDK calls, exit status. -/
structure RunResult where
  events : List OutEvent
  calls : List ApiCall
  exitCode : Nat
deriving DecidableEq, Repr

/-- Python truthiness of an optional string: `None` and the empty string
are falsy, every other string is truthy. -/
def strTruthy : Option String → Bool
  | none => false
  | some s => s != ""

/-- Characters of the decimal representation of a natural number
(most-significant digit first), as written by Python `str`. -/
def decList (n : Nat) : List Char :=
  if h : n < 10 then [Nat.digitChar n]
  else decList (n / 10) ++ [Nat.digitChar (n % 10)]
termination_by n
decreasing_by exact Nat.div_lt_self (by omega) (by omega)

/-- Decimal string of a natural number. -/
def decStr (n : Nat) : String := String.mk (decList n)

/-- Decimal string of a Python int (sign handled as Python `str` does). -/
def intStr (i : Int) : String :=
  if i < 0 then "-" ++ decStr i.natAbs else decStr i.natAbs

/-- Zero-padded two-digit field of `strftime` (`%m %d %H %M %S`), for the
in-range values a `datetime` carries. -/
def pad2 (n : Nat) : List Char :=
  if n < 10 then '0' :: decList n else decList n

/-- String form of `pad2`. -/
def pad2str (n : Nat) : String := String.mk (pad2 n)

/-- `check_aws_credentials` from either script: returns True only when
`get_caller_identity` succeeds, printing the identity; every failure
prints a diagnostic and returns False. -/
def check_aws_credentials (cred : CredResult) : EffBool :=
  match cred with
  | CredResult.ok account userId arn =>
      { events := [print_success ("✓ Credentials AWS valides"),
                   printLine ("  Account: " ++ account),
                   printLine ("  UserId: " ++ userId),
                   printLine ("  ARN: " ++ arn)],
        calls := [ApiCall.getCallerIdentity], ret := true }
  | CredResult.noCredentials =>
      { events := [print_error ("Erreur: Credentials AWS non trouvés"),
                   print_warning ("Configurez vos credentials avec: aws configure")],
        calls := [ApiCall.getCallerIdentity], ret := false }
  | CredResult.clientError e =>
      { events := [print_error ("Erreur lors de la vérification des credentials: " ++ e)],
        calls := [ApiCall.getCallerIdentity], ret := false }
  | CredResult.err e =>
      { events := [print_error ("Erreur inattendue: " ++ e)],
        calls := [ApiCall.getCallerIdentity], ret := false }

/-- `check_object_exists` from the download script: `head_object` success
means True; a `ClientError` whose extracted code (`Error.Code`, default
`Unknown`) is `404` means False; any other `ClientError` prints a warning
and returns True; any other exception returns True. -/
def check_object_exists (bucket_name object_key : String) (h : HeadResult) : EffBool :=
  match h with
  | HeadResult.ok _ _ _ =>
      { events := [], calls := [ApiCall.headObject bucket_name object_key], ret := true }
  | HeadResult.clientError code e =>
      if code.getD "Unknown" = "404" then
        { events := [], calls := [ApiCall.headObject bucket_name object_key], ret := false }
      else
        { events := [print_warning ("Impossible de vérifier l\x27existence de l\x27objet: " ++ e)],
          calls := [ApiCall.headObject bucket_name object_key], ret := true }
  | HeadResult.err _ =>
      { events := [], calls := [ApiCall.headObject bucket_name object_key], ret := true }

/-- Object metadata assembled by `get_object_info`. -/
structure ObjInfo where
  size : String
  content_type : String
  last_modified : String
deriving DecidableEq, Repr

/-- Two-decimal rendering of the ratio `num / den`, modelling the Python
f-string `.2f` formatting of the float quotient by round-to-nearest on the
exact rational (the float rounding may differ in the last decimal on ties;
no claim depends on this string). -/
def twoDecimals (num den : Nat) : String :=
  let scaled := (num * 200 + den) / (2 * den)
  decStr (scaled / 100) ++ "." ++ pad2str (scaled % 100)

/-- Human-readable size string from `get_object_info`. -/
def formatSize (size_bytes : Nat) : String :=
  if size_bytes < 1024 then decStr size_bytes ++ " B"
  else if size_bytes < 1048576 then twoDecimals size_bytes 1024 ++ " KB"
  else if size_bytes < 1073741824 then twoDecimals size_bytes 1048576 ++ " MB"
  else twoDecimals size_bytes 1073741824 ++ " GB"

/-- `get_object_info` from the download script: on a successful
`head_object` it builds the info dict (with `.get` defaults), on any
exception it returns None. -/
def get_object_info (bucket_name object_key : String) (h : HeadResult) :
    List ApiCall × Option ObjInfo :=
  match h with
  | HeadResult.ok len ct lm =>
      ([ApiCall.headObject bucket_name object_key],
       some { size := formatSize (len.getD 0),
              content_type := ct.getD "unknown",
              last_modified := lm.getD "unknown" })
  | _ => ([ApiCall.headObject bucket_name object_key], none)

/-- The `ResponseContentDisposition` parameter added by
`generate_presigned_download_url`: present only when `filename` is truthy. -/
def dispositionParam (filename : Option String) : Option String :=
  match filename with
  | some f => if f = "" then none else some ("attachment; filename=\"" ++ f ++ "\"")
  | none => none

/-- The `ContentType` parameter added by the upload script's
`generate_presigned_url`: present only when `content_type` is truthy. -/
def contentTypeParam (content_type : Option String) : Option String :=
  match content_type with
  | some c => if c = "" then none else some c
  | none => none

/-- `generate_presigned_download_url`: builds the GET params and calls the
signing operation; on `ClientError` or any exception prints a diagnostic
and returns None. -/
def generate_presigned_download_url (bucket_name object_key : String) (expiration : Int)
    (filename : Option String) (sr : SignResult) : EffStr :=
  let rcd := dispositionParam filename
  match sr with
  | SignResult.ok url =>
      { events := [], calls := [ApiCall.signGet bucket_name object_key rcd expiration],
        ret := some url }
  | SignResult.clientError code msg e =>
      { events := [print_error ("Erreur AWS (" ++ code.getD "Unknown" ++ "): " ++ msg.getD e)],
        calls := [ApiCall.signGet bucket_name object_key rcd expiration], ret := none }
  | SignResult.err e =>
      { events := [print_error ("Erreur lors de la génération de l\x27URL: " ++ e)],
        calls := [ApiCall.signGet bucket_name object_key rcd expiration], ret := none }

/-- The upload script's `generate_presigned_url`: builds the PUT params and
calls the signing operation; failures print a diagnostic and return None. -/
def generate_presigned_url (bucket_name object_key : String) (expiration : Int)
    (content_type : Option String) (sr : SignResult) : EffStr :=
  let ct := contentTypeParam content_type
  match sr with
  | SignResult.ok url =>
      { events := [], calls := [ApiCall.signPut bucket_name object_key ct expiration],
        ret := some url }
  | SignResult.clientError code msg e =>
      { events := [print_error ("Erreur AWS (" ++ code.getD "Unknown" ++ "): " ++ msg.getD e)],
        calls := [ApiCall.signPut bucket_name object_key ct expiration], ret := none }
  | SignResult.err e =>
      { events := [print_error ("Erreur lors de la génération de l\x27URL: " ++ e)],
        calls := [ApiCall.signPut bucket_name object_key ct expiration], ret := none }

/-- The horizontal separator line printed by both usage-example helpers. -/
def lineSep : String := String.join (List.replicate 70 "━")

/-- The human-readable duration parts built at the end of both
usage-example helpers (Python `//` and `%` are floor division and modulo,
hence `Int.fdiv` and `Int.fmod`). -/
def durationParts (expiration : Int) : List String :=
  let hours := expiration.fdiv 3600
  let minutes := (expiration.fmod 3600).fdiv 60
  let seconds := expiration.fmod 60
  let p1 : List String :=
    if hours > 0 then [intStr hours ++ " heure" ++ (if hours > 1 then "s" else "")] else []
  let p2 : List String :=
    if minutes > 0 then [intStr minutes ++ " minute" ++ (if minutes > 1 then "s" else "")] else []
  let p12 := p1 ++ p2
  let p3 : List String :=
    if seconds > 0 ∨ p12 = [] then
      [intStr seconds ++ " seconde" ++ (if seconds > 1 then "s" else "")]
    else []
  p12 ++ p3

/-- The joined duration string. -/
def durationStr (expiration : Int) : String :=
  String.intercalate " " (durationParts expiration)

/-- `print_usage_examples` of the download script (its `object_key`
parameter is received but never used, as in the source). -/
def print_usage_examples_download (presigned_url : String) (expiration : Int)
    (object_key : String) : List OutEvent :=
  [ printLine "",
    printLine lineSep,
    print_success ("URL PRÉ-SIGNÉE DE TÉLÉCHARGEMENT:"),
    printLine presigned_url,
    printLine lineSep,
    printLine "",
    print_warning ("Pour télécharger le fichier avec cette URL:"),
    printLine "",
    printLine ("  Avec le script fourni:"),
    printLine ("  ./download-from-presigned-url.sh \"" ++ presigned_url ++ "\""),
    printLine "",
    printLine ("  Avec curl:"),
    printLine ("  curl -o \"fichier\" \"" ++ presigned_url ++ "\""),
    printLine "",
    printLine ("  Avec wget:"),
    printLine ("  wget -O \"fichier\" \"" ++ presigned_url ++ "\""),
    printLine "",
    printLine ("  Dans un navigateur web:"),
    printLine ("  Collez simplement l\x27URL dans la barre d\x27adresse"),
    printLine "",
    printLine ("  Avec Python requests:"),
    printLine ("  import requests"),
    printLine ("  response = requests.get(\x27" ++ presigned_url.take 50 ++ "...\x27)"),
    printLine ("  with open(\x27fichier\x27, \x27wb\x27) as f:"),
    printLine ("      f.write(response.content)"),
    printLine "",
    print_warning ("L\x27URL expire dans " ++ durationStr expiration),
    printLine "" ]

/-- `print_usage_examples` of the upload script. -/
def print_usage_examples_upload (presigned_url : String) (expiration : Int) :
    List OutEvent :=
  [ printLine "",
    printLine lineSep,
    print_success ("URL PRÉ-SIGNÉE:"),
    printLine presigned_url,
    printLine lineSep,
    printLine "",
    print_warning ("Pour uploader un fichier avec cette URL, utilisez:"),
    printLine "",
    printLine ("  Avec curl:"),
    printLine ("  curl -X PUT -T \"chemin/vers/fichier\" \"" ++ presigned_url ++ "\""),
    printLine "",
    printLine ("  Avec wget:"),
    printLine ("  wget --method=PUT --body-file=\"chemin/vers/fichier\" \"" ++ presigned_url ++ "\""),
    printLine "",
    printLine ("  Avec Python requests:"),
    printLine ("  import requests"),
    printLine ("  with open(\x27fichier\x27, \x27rb\x27) as f:"),
    printLine ("      response = requests.put(\x27" ++ presigned_url.take 50 ++ "...\x27, data=f)"),
    printLine "",
    print_warning ("L\x27URL expire dans " ++ durationStr expiration),
    printLine "" ]

/-- Parsed arguments of the download script. -/
structure DlArgs where
  bucket_name : String
  object_key : String
  expiration : Int
  filename : Option String
  quiet : Bool
  no_check : Bool
deriving DecidableEq, Repr

/-- Environment of one download invocation: the responses the storage
collaborator would give to each call the script can make (`headCheck` for
`check_object_exists`, `headInfo` for `get_object_info`), and whether a
user interrupt occurs. -/
structure DlEnv where
  cred : CredResult
  headCheck : HeadResult
  headInfo : HeadResult
  sign : SignResult
  interrupt : Bool
deriving DecidableEq, Repr

/-- Tail of the download `main` after the optional verification block:
generate the URL; a falsy result (None or the empty string) prints a
failure and exits 1; otherwise print the URL alone (quiet) or the success
banner with usage examples, and fall off the end (exit 0). -/
def finishDownload (a : DlArgs) (env : DlEnv) (ev : List OutEvent) (calls : List ApiCall) :
    RunResult :=
  let g := generate_presigned_download_url a.bucket_name a.object_key a.expiration
             a.filename env.sign
  match g.ret with
  | some url =>
      if url = "" then
        { events := ev ++ g.events ++ [print_error ("Échec de la génération de l\x27URL pré-signée")],
          calls := calls ++ g.calls, exitCode := 1 }
      else if a.quiet then
        { events := ev ++ g.events ++ [printLine url],
          calls := calls ++ g.calls, exitCode := 0 }
      else
        { events := ev ++ g.events
                    ++ [print_success ("✓ URL pré-signée de téléchargement générée avec succès!")]
                    ++ print_usage_examples_download url a.expiration a.object_key,
          calls := calls ++ g.calls, exitCode := 0 }
  | none =>
      { events := ev ++ g.events ++ [print_error ("Échec de la génération de l\x27URL pré-signée")],
        calls := calls ++ g.calls, exitCode := 1 }

/-- `main` of the download script. -/
def downloadMain (a : DlArgs) (env : DlEnv) : RunResult :=
  if a.expiration < 1 then
    { events := [print_error ("Erreur: L\x27expiration doit être au moins 1 seconde")],
      calls := [], exitCode := 1 }
  else
  let ev0 : List OutEvent :=
    if a.expiration > 604800 then
      [print_warning ("Avertissement: L\x27expiration maximale recommandée est de 7 jours (604800 secondes)")]
    else []
  if a.quiet then
    finishDownload a env ev0 []
  else
    let ev1 := ev0 ++ [print_warning ("Vérification des prérequis..."), printLine ""]
    let c := check_aws_credentials env.cred
    if !c.ret then
      { events := ev1 ++ c.events, calls := c.calls, exitCode := 1 }
    else
      let ev2 := ev1 ++ c.events
        ++ [printLine "", print_warning ("Génération de l\x27URL pré-signée de téléchargement..."),
            printLine ("Bucket: " ++ a.bucket_name),
            printLine ("Object Key: " ++ a.object_key),
            printLine ("Expiration: " ++ intStr a.expiration ++ " secondes")]
        ++ (if strTruthy a.filename then
              [printLine ("Nom de fichier suggéré: " ++ a.filename.getD "")]
            else [])
        ++ [printLine ""]
      if !a.no_check then
        let ev3 := ev2 ++ [print_info ("Vérification de l\x27existence du fichier...")]
        let ch := check_object_exists a.bucket_name a.object_key env.headCheck
        if !ch.ret then
          { events := ev3 ++ ch.events
              ++ [print_error ("Le fichier \x27" ++ a.object_key ++ "\x27 n\x27existe pas dans le bucket \x27" ++ a.bucket_name ++ "\x27"),
                  print_warning ("Utilisez --no-check pour ignorer cette vérification")],
            calls := c.calls ++ ch.calls, exitCode := 1 }
        else
          let oi := get_object_info a.bucket_name a.object_key env.headInfo
          let infoEv : List OutEvent :=
            match oi.2 with
            | some i => [print_success ("✓ Fichier trouvé"),
                         printLine ("  Taille: " ++ i.size),
                         printLine ("  Type: " ++ i.content_type),
                         printLine ("  Dernière modification: " ++ i.last_modified)]
            | none => []
          finishDownload a env (ev3 ++ ch.events ++ infoEv ++ [printLine ""])
            (c.calls ++ ch.calls ++ oi.1)
      else
        finishDownload a env ev2 c.calls

/-- The download script's top level: `main` inside a try/except where a
`KeyboardInterrupt` exits 130 and any other exception exits 1 (the modelled
`main` raises nothing else; `sys.exit` statuses pass through unchanged
because `SystemExit` is caught by neither handler).  An interrupt is
modelled as preempting `main` before its first action; the claims about it
concern only the exit status. -/
def downloadScript (a : DlArgs) (env : DlEnv) : RunResult :=
  if env.interrupt then
    { events := [printLine "", print_warning ("Opération annulée par l\x27utilisateur")],
      calls := [], exitCode := 130 }
  else downloadMain a env

/-- Parsed arguments of the upload script. -/
structure UpArgs where
  bucket_name : String
  object_key : Option String
  expiration : Int
  content_type : Option String
  quiet : Bool
deriving DecidableEq, Repr

/-- A local `datetime` value, as returned by `datetime.now()`. -/
structure DateTime where
  year : Nat
  month : Nat
  day : Nat
  hour : Nat
  minute : Nat
  second : Nat
deriving DecidableEq, Repr

/-- Environment of one upload invocation. -/
structure UpEnv where
  cred : CredResult
  sign : SignResult
  now : DateTime
  interrupt : Bool
deriving DecidableEq, Repr

/-- `strftime("%Y%m%d-%H%M%S")`: unpadded decimal year (as on platforms
whose `%Y` does not pad; identical to the padded form for four-digit
years, the only ones the claims concern) followed by two-digit padded
month, day, hour, minute, second. -/
def strftime_Ymd_HMS (t : DateTime) : String :=
  String.mk (decList t.year ++ pad2 t.month ++ pad2 t.day ++ '-' ::
             (pad2 t.hour ++ pad2 t.minute ++ pad2 t.second))

/-- `generate_default_object_key` from the upload script. -/
def generate_default_object_key (now : DateTime) : String :=
  "uploads/file-" ++ strftime_Ymd_HMS now

/-- The object key the upload `main` uses: the `--object-key` argument if
truthy, else the timestamp-derived default. -/
def effectiveKey (object_key : Option String) (now : DateTime) : String :=
  if strTruthy object_key then object_key.getD "" else generate_default_object_key now

/-- Tail of the upload `main`: generate the URL; a falsy result prints a
failure and exits 1; otherwise print the URL alone (quiet) or the success
banner with usage examples (exit 0). -/
def finishUpload (a : UpArgs) (env : UpEnv) (object_key : String) (ev : List OutEvent)
    (calls : List ApiCall) : RunResult :=
  let g := generate_presigned_url a.bucket_name object_key a.expiration
             a.content_type env.sign
  match g.ret with
  | some url =>
      if url = "" then
        { events := ev ++ g.events ++ [print_error ("Échec de la génération de l\x27URL pré-signée")],
          calls := calls ++ g.calls, exitCode := 1 }
      else if a.quiet then
        { events := ev ++ g.events ++ [printLine url],
          calls := calls ++ g.calls, exitCode := 0 }
      else
        { events := ev ++ g.events
                    ++ [print_success ("✓ URL pré-signée générée avec succès!")]
                    ++ print_usage_examples_upload url a.expiration,
          calls := calls ++ g.calls, exitCode := 0 }
  | none =>
      { events := ev ++ g.events ++ [print_error ("Échec de la génération de l\x27URL pré-signée")],
        calls := calls ++ g.calls, exitCode := 1 }

/-- `main` of the upload script. -/
def uploadMain (a : UpArgs) (env : UpEnv) : RunResult :=
  if a.expiration < 1 then
    { events := [print_error ("Erreur: L\x27expiration doit être au moins 1 seconde")],
      calls := [], exitCode := 1 }
  else
  let ev0 : List OutEvent :=
    if a.expiration > 604800 then
      [print_warning ("Avertissement: L\x27expiration maximale recommandée est de 7 jours (604800 secondes)")]
    else []
  let object_key := effectiveKey a.object_key env.now
  if a.quiet then
    finishUpload a env object_key ev0 []
  else
    let ev1 := ev0 ++ [print_warning ("Vérification des prérequis..."), printLine ""]
    let c := check_aws_credentials env.cred
    if !c.ret then
      { events := ev1 ++ c.events, calls := c.calls, exitCode := 1 }
    else
      let ev2 := ev1 ++ c.events
        ++ [printLine "", print_warning ("Génération de l\x27URL pré-signée..."),
            printLine ("Bucket: " ++ a.bucket_name),
            printLine ("Object Key: " ++ object_key),
            printLine ("Expiration: " ++ intStr a.expiration ++ " secondes")]
        ++ (if strTruthy a.content_type then
              [printLine ("Content-Type: " ++ a.content_type.getD "")]
            else [])
        ++ [printLine ""]
      finishUpload a env object_key ev2 c.calls

/-- The upload script's top level, analogous to `downloadScript`. -/
def uploadScript (a : UpArgs) (env : UpEnv) : RunResult :=
  if env.interrupt then
    { events := [printLine "", print_warning ("Opération annulée par l\x27utilisateur")],
      calls := [], exitCode := 130 }
  else uploadMain a env

/-- True of the calls that invoke the URL-signing operation. -/
def isSignCall : ApiCall → Bool
  | ApiCall.signGet _ _ _ _ => true
  | ApiCall.signPut _ _ _ _ => true
  | _ => false

/-- True of the `get_caller_identity` call. -/
def isIdentityCall : ApiCall → Bool
  | ApiCall.getCallerIdentity => true
  | _ => false

/-- True of the `head_object` calls. -/
def isHeadCall : ApiCall → Bool
  | ApiCall.headObject _ _ => true
  | _ => false

/-- Whether a run invoked the URL-signing operation. -/
def usedSigning (r : RunResult) : Bool := r.calls.any isSignCall

/-- Whether a run called `get_caller_identity`. -/
def usedIdentity (r : RunResult) : Bool := r.calls.any isIdentityCall

/-- Whether a run called `head_object`. -/
def usedHead (r : RunResult) : Bool := r.calls.any isHeadCall

/-- The chunks a run wrote to stdout, in order. -/
def stdoutChunks (r : RunResult) : List String :=
  (r.events.filter fun e => e.stream == OutStream.stdout).map OutEvent.text

/-- The full text a run wrote to stdout. -/
def stdoutText (r : RunResult) : String := String.join (stdoutChunks r)

/-- Whether a given stdout chunk occurs in a run (a printed line). -/
def printedOn (r : RunResult) (e : OutEvent) : Bool := r.events.contains e

/-- The over-limit expiration warning event shared by both scripts. -/
def expWarnEvent : OutEvent :=
  print_warning ("Avertissement: L\x27expiration maximale recommandée est de 7 jours (604800 secondes)")

/-- Outcome of `parser.parse_args()` at the start of either `main`: the
parsed arguments, or an argparse usage error (missing positional, unknown
option, non-integer `--expiration`, ...).  On a usage error argparse
prints the usage and error text to stderr and raises `SystemExit(2)`,
which neither top-level handler catches (`except KeyboardInterrupt` and
`except Exception` both exclude `SystemExit`), so the process exits with
status 2; the message text is carried as given by argparse. -/
inductive ParseResult (α : Type) where
  | ok (args : α)
  | usageError (msg : String)
deriving DecidableEq, Repr

/-- The download script's top level including the argument-parse step. -/
def downloadScriptFull (p : ParseResult DlArgs) (env : DlEnv) : RunResult :=
  match p with
  | ParseResult.usageError m =>
      { events := [⟨OutStream.stderr, m⟩], calls := [], exitCode := 2 }
  | ParseResult.ok a => downloadScript a env

/-- The upload script's top level including the argument-parse step. -/
def uploadScriptFull (p : ParseResult UpArgs) (env : UpEnv) : RunResult :=
  match p with
  | ParseResult.usageError m =>
      { events := [⟨OutStream.stderr, m⟩], calls := [], exitCode := 2 }
  | ParseResult.ok a => uploadScript a env

/-- Decidable check that a string matches the documented default-key
pattern: `uploads/file-` followed by eight digits, a dash, six digits,
and nothing else. -/
def matchesDefaultKeyPattern (s : String) : Bool :=
  let cs := s.toList
  cs.take 13 == "uploads/file-".toList &&
  cs.length == 28 &&
  ((cs.drop 13).take 8).all Char.isDigit &&
  ((cs.drop 13).drop 8).take 1 == ['-'] &&
  (((cs.drop 13).drop 8).drop 1).all Char.isDigit

theorem finishDownload_exit (a : DlArgs) (de : DlEnv) (ev : List OutEvent) (calls : List ApiCall) :
    (finishDownload a de ev calls).exitCode = 0 ∨ (finishDownload a de ev calls).exitCode = 1 := by
  unfold finishDownload generate_presigned_download_url
  cases de.sign <;> simp <;> split_ifs <;> simp

theorem finishUpload_exit (a : UpArgs) (ue : UpEnv) (k : String) (ev : List OutEvent)
    (calls : List ApiCall) :
    (finishUpload a ue k ev calls).exitCode = 0 ∨ (finishUpload a ue k ev calls).exitCode = 1 := by
  unfold finishUpload generate_presigned_url
  cases ue.sign <;> simp <;> split_ifs <;> simp

theorem downloadMain_exit (a : DlArgs) (de : DlEnv) :
    (downloadMain a de).exitCode = 0 ∨ (downloadMain a de).exitCode = 1 := by
  simp only [downloadMain]
  repeat' split
  all_goals first | apply finishDownload_exit | simp

theorem uploadMain_exit (a : UpArgs) (ue : UpEnv) :
    (uploadMain a ue).exitCode = 0 ∨ (uploadMain a ue).exitCode = 1 := by
  simp only [uploadMain]
  repeat' split
  all_goals first | apply finishUpload_exit | simp

/-- C3: for every invocation of either script with parsed expiration below
one, the run exits with status 1 and performs no API call at all. -/
theorem expiration_below_one_rejected (a : DlArgs) (ua : UpArgs) (de : DlEnv) (ue : UpEnv)
    (h1 : a.expiration < 1) (h2 : ua.expiration < 1) :
    ((downloadMain a de).exitCode = 1 ∧ (downloadMain a de).calls = []) ∧
    ((uploadMain ua ue).exitCode = 1 ∧ (uploadMain ua ue).calls = []) := by
  refine ⟨⟨?_, ?_⟩, ⟨?_, ?_⟩⟩ <;> simp [downloadMain, uploadMain, h1, h2]

/-- Witness for C3 at concrete invocations with expiration 0. -/
theorem expiration_below_one_rejected_witness :
    ((downloadMain ⟨"b", "k", 0, none, false, false⟩
        ⟨CredResult.ok "a" "u" "r", HeadResult.ok none none none, HeadResult.ok none none none,
         SignResult.ok "u", false⟩).exitCode = 1 ∧
     (downloadMain ⟨"b", "k", 0, none, false, false⟩
        ⟨CredResult.ok "a" "u" "r", HeadResult.ok none none none, HeadResult.ok none none none,
         SignResult.ok "u", false⟩).calls = []) ∧
    ((uploadMain ⟨"b", some "k", 0, none, false⟩
        ⟨CredResult.ok "a" "u" "r", SignResult.ok "u", ⟨2026, 1, 1, 0, 0, 0⟩, false⟩).exitCode = 1 ∧
     (uploadMain ⟨"b", some "k", 0, none, false⟩
        ⟨CredResult.ok "a" "u" "r", SignResult.ok "u", ⟨2026, 1, 1, 0, 0, 0⟩, false⟩).calls = []) :=
  expiration_below_one_rejected _ _ _ _ (by decide) (by decide)

/-- C7: for either script, a user interrupt during `main` makes the process
terminate with exit status exactly 130. -/
theorem interrupt_exits_130 (a : DlArgs) (de : DlEnv) (ua : UpArgs) (ue : UpEnv)
    (h1 : de.interrupt = true) (h2 : ue.interrupt = true) :
    (downloadScript a de).exitCode = 130 ∧ (uploadScript ua ue).exitCode = 130 := by
  simp [downloadScript, uploadScript, h1, h2]

/-- Witness for C7 at concrete interrupted invocations. -/
theorem interrupt_exits_130_witness :
    (downloadScript ⟨"b", "k", 3600, none, false, false⟩
       ⟨CredResult.ok "a" "u" "r", HeadResult.ok none none none, HeadResult.ok none none none,
        SignResult.ok "u", true⟩).exitCode = 130 ∧
    (uploadScript ⟨"b", some "k", 3600, none, false⟩
       ⟨CredResult.ok "a" "u" "r", SignResult.ok "u", ⟨2026, 1, 1, 0, 0, 0⟩, true⟩).exitCode = 130 :=
  interrupt_exits_130 _ _ _ _ rfl rfl

/-- C6 counterexample: an invocation of the download script whose command
line argparse rejects (for example a missing positional or a non-integer
`--expiration`) exits with status 2 — `SystemExit(2)` from `parse_args`
passes through both top-level handlers — so the exit status is not one of
0, 1, 130. -/
theorem exit_status_counterexample :
    ¬ ((downloadScriptFull (ParseResult.usageError "usage: error")
          ⟨CredResult.ok "a" "u" "r", HeadResult.ok none none none, HeadResult.ok none none none,
           SignResult.ok "https://x", false⟩).exitCode = 0 ∨
       (downloadScriptFull (ParseResult.usageError "usage: error")
          ⟨CredResult.ok "a" "u" "r", HeadResult.ok none none none, HeadResult.ok none none none,
           SignResult.ok "https://x", false⟩).exitCode = 1 ∨
       (downloadScriptFull (ParseResult.usageError "usage: error")
          ⟨CredResult.ok "a" "u" "r", HeadResult.ok none none none, HeadResult.ok none none none,
           SignResult.ok "https://x", false⟩).exitCode = 130) := by
  decide

/-- C6 as amended: every invocation of either script whose command line
parses successfully exits with status 0 (success), 1 (failure or
validation error), or 130 (user interrupt); an invocation whose command
line argparse rejects exits with status 2, and those are the only exit
statuses. -/
theorem exit_status_amended (a : DlArgs) (de : DlEnv) (ua : UpArgs) (ue : UpEnv)
    (m m2 : String) :
    ((downloadScript a de).exitCode = 0 ∨ (downloadScript a de).exitCode = 1 ∨
       (downloadScript a de).exitCode = 130) ∧
    ((uploadScript ua ue).exitCode = 0 ∨ (uploadScript ua ue).exitCode = 1 ∨
       (uploadScript ua ue).exitCode = 130) ∧
    (downloadScriptFull (ParseResult.ok a) de).exitCode = (downloadScript a de).exitCode ∧
    (uploadScriptFull (ParseResult.ok ua) ue).exitCode = (uploadScript ua ue).exitCode ∧
    (downloadScriptFull (ParseResult.usageError m) de).exitCode = 2 ∧
    (uploadScriptFull (ParseResult.usageError m2) ue).exitCode = 2 := by
  refine ⟨?_, ?_, rfl, rfl, rfl, rfl⟩
  · unfold downloadScript
    split
    · simp
    · rcases downloadMain_exit a de with h | h <;> simp [h]
  · unfold uploadScript
    split
    · simp
    · rcases uploadMain_exit ua ue with h | h <;> simp [h]

/-- C9: `check_object_exists` returns False exactly when the collaborator
raises a `ClientError` whose extracted error code is `404`; every other
`ClientError` and every non-`ClientError` exception yields True. -/
theorem check_object_exists_false_iff_404 (b k : String) (h : HeadResult) :
    (check_object_exists b k h).ret = false ↔
      ∃ m, h = HeadResult.clientError (some "404") m := by
  cases h with
  | ok len ct lm => simp [check_object_exists]
  | clientError code e =>
      cases code with
      | none => simp [check_object_exists]
      | some c => by_cases hc : c = "404" <;> simp [check_object_exists, hc]
  | err e => simp [check_object_exists]

theorem finishDownload_calls (a : DlArgs) (de : DlEnv) (ev : List OutEvent) (calls : List ApiCall) :
    (finishDownload a de ev calls).calls =
      calls ++ [ApiCall.signGet a.bucket_name a.object_key (dispositionParam a.filename)
                  a.expiration] := by
  unfold finishDownload generate_presigned_download_url
  cases de.sign <;> simp <;> split_ifs <;> simp

theorem finishUpload_calls (a : UpArgs) (ue : UpEnv) (k : String) (ev : List OutEvent)
    (calls : List ApiCall) :
    (finishUpload a ue k ev calls).calls =
      calls ++ [ApiCall.signPut a.bucket_name k (contentTypeParam a.content_type)
                  a.expiration] := by
  unfold finishUpload generate_presigned_url
  cases ue.sign <;> simp <;> split_ifs <;> simp

theorem downloadMain_quiet (a : DlArgs) (de : DlEnv) (hq : a.quiet = true) :
    downloadMain a de =
      if a.expiration < 1 then
        ({ events := [print_error ("Erreur: L\x27expiration doit être au moins 1 seconde")],
           calls := [], exitCode := 1 } : RunResult)
      else finishDownload a de (if a.expiration > 604800 then [expWarnEvent] else []) [] := by
  simp only [downloadMain, hq, expWarnEvent, if_true]

theorem uploadMain_quiet (a : UpArgs) (ue : UpEnv) (hq : a.quiet = true) :
    uploadMain a ue =
      if a.expiration < 1 then
        ({ events := [print_error ("Erreur: L\x27expiration doit être au moins 1 seconde")],
           calls := [], exitCode := 1 } : RunResult)
      else finishUpload a ue (effectiveKey a.object_key ue.now)
             (if a.expiration > 604800 then [expWarnEvent] else []) [] := by
  simp only [uploadMain, hq, expWarnEvent, if_true]

/-- C8: with `--quiet`, neither script ever calls `get_caller_identity`;
the download script also never calls `head_object`, even when `--no-check`
is absent, and its whole result is independent of the object-existence
responses the collaborator would give. -/
theorem quiet_skips_credential_and_existence_checks (a : DlArgs) (de : DlEnv)
    (ua : UpArgs) (ue : UpEnv) (h1 h2 : HeadResult)
    (hq : a.quiet = true) (huq : ua.quiet = true) :
    usedIdentity (downloadMain a de) = false ∧
    usedHead (downloadMain a de) = false ∧
    downloadMain a { de with headCheck := h1, headInfo := h2 } = downloadMain a de ∧
    usedIdentity (uploadMain ua ue) = false := by
  refine ⟨?_, ?_, ?_, ?_⟩
  · rw [downloadMain_quiet a de hq]
    split
    · simp [usedIdentity]
    · simp [usedIdentity, finishDownload_calls, isIdentityCall]
  · rw [downloadMain_quiet a de hq]
    split
    · simp [usedHead]
    · simp [usedHead, finishDownload_calls, isHeadCall]
  · rw [downloadMain_quiet a de hq, downloadMain_quiet a _ hq]
    split
    · rfl
    · unfold finishDownload generate_presigned_download_url
      simp
  · rw [uploadMain_quiet ua ue huq]
    split
    · simp [usedIdentity]
    · simp [usedIdentity, finishUpload_calls, isIdentityCall]

/-- Witness for C8 at concrete quiet invocations (the two existence
responses differ: a definite 404 versus a successful head). -/
theorem quiet_skips_checks_witness :
    usedIdentity (downloadMain ⟨"b", "k", 3600, none, true, false⟩
      ⟨CredResult.ok "a" "u" "r", HeadResult.ok none none none, HeadResult.ok none none none,
       SignResult.ok "https://u", false⟩) = false ∧
    usedHead (downloadMain ⟨"b", "k", 3600, none, true, false⟩
      ⟨CredResult.ok "a" "u" "r", HeadResult.ok none none none, HeadResult.ok none none none,
       SignResult.ok "https://u", false⟩) = false ∧
    downloadMain ⟨"b", "k", 3600, none, true, false⟩
      ⟨CredResult.ok "a" "u" "r", HeadResult.clientError (some "404") "404", HeadResult.err "x",
       SignResult.ok "https://u", false⟩ =
      downloadMain ⟨"b", "k", 3600, none, true, false⟩
        ⟨CredResult.ok "a" "u" "r", HeadResult.ok none none none, HeadResult.ok none none none,
         SignResult.ok "https://u", false⟩ ∧
    usedIdentity (uploadMain ⟨"b", some "k", 3600, none, true⟩
      ⟨CredResult.ok "a" "u" "r", SignResult.ok "https://u", ⟨2026, 1, 1, 0, 0, 0⟩, false⟩) = false :=
  quiet_skips_credential_and_existence_checks _ _ _ _ _ _ rfl rfl

/-- C10: empty-string values of the optional string arguments behave
exactly as omitted options: an empty `--filename`, `--content-type` or
`--object-key` gives the same run as passing nothing, an empty
`--object-key` selects the timestamp-derived default key, and an empty
filename or content-type adds no parameter to the signing call. -/
theorem empty_string_options_are_omitted (b k : String) (e : Int) (q nc : Bool)
    (ct ok2 : Option String) (de : DlEnv) (ue : UpEnv) (now : DateTime) :
    downloadMain ⟨b, k, e, some "", q, nc⟩ de = downloadMain ⟨b, k, e, none, q, nc⟩ de ∧
    uploadMain ⟨b, some "", e, ct, q⟩ ue = uploadMain ⟨b, none, e, ct, q⟩ ue ∧
    uploadMain ⟨b, ok2, e, some "", q⟩ ue = uploadMain ⟨b, ok2, e, none, q⟩ ue ∧
    effectiveKey (some "") now = generate_default_object_key now ∧
    dispositionParam (some "") = none ∧
    contentTypeParam (some "") = none := by
  refine ⟨?_, ?_, ?_, ?_, ?_, ?_⟩
  · simp [downloadMain, finishDownload, generate_presigned_download_url,
      strTruthy, dispositionParam]
  · simp [uploadMain, finishUpload, generate_presigned_url, strTruthy, effectiveKey]
  · simp [uploadMain, finishUpload, generate_presigned_url, strTruthy, contentTypeParam]
  · simp [effectiveKey, strTruthy]
  · simp [dispositionParam]
  · simp [contentTypeParam]

theorem join_singleton (s : String) : String.join [s] = s := by
  simp [String.join]

/-- C2 counterexample: a quiet download invocation with expiration 604801
succeeds (the signing operation returns a URL) yet its stdout is not just
the signed URL and a newline — the over-limit expiration warning precedes
it on stdout. -/
theorem quiet_stdout_counterexample :
    ¬ (stdoutText (downloadMain ⟨"b", "k", 604801, none, true, false⟩
         ⟨CredResult.ok "a" "u" "r", HeadResult.ok none none none, HeadResult.ok none none none,
          SignResult.ok "https://x", false⟩) = "https://x" ++ "\n") := by
  decide

/-- C2 as amended: for every invocation of either script with `--quiet`
set, an expiration between 1 and 604800, and a signing operation that
returns a (non-empty) URL, the text written to stdout is exactly the
signed URL followed by a newline and nothing else.  (With an expiration
above 604800 the warning is printed to stdout as well.) -/
theorem quiet_stdout_amended (a : DlArgs) (de : DlEnv) (ua : UpArgs) (ue : UpEnv)
    (url uurl : String)
    (hq : a.quiet = true) (h1 : 1 ≤ a.expiration) (h2 : a.expiration ≤ 604800)
    (hs : de.sign = SignResult.ok url) (hu : url ≠ "")
    (huq : ua.quiet = true) (hu1 : 1 ≤ ua.expiration) (hu2 : ua.expiration ≤ 604800)
    (hus : ue.sign = SignResult.ok uurl) (huu : uurl ≠ "") :
    stdoutText (downloadMain a de) = url ++ "\n" ∧
    stdoutText (uploadMain ua ue) = uurl ++ "\n" := by
  constructor
  · rw [downloadMain_quiet a de hq, if_neg (by omega), if_neg (by omega)]
    unfold finishDownload generate_presigned_download_url
    rw [hs]
    simp [stdoutText, stdoutChunks, printLine, hu, hq, join_singleton]
  · rw [uploadMain_quiet ua ue huq, if_neg (by omega), if_neg (by omega)]
    unfold finishUpload generate_presigned_url
    rw [hus]
    simp [stdoutText, stdoutChunks, printLine, huu, huq, join_singleton]

/-- Witness for the amended C2 at concrete quiet invocations. -/
theorem quiet_stdout_amended_witness :
    stdoutText (downloadMain ⟨"b", "k", 3600, none, true, false⟩
      ⟨CredResult.ok "a" "u" "r", HeadResult.ok none none none, HeadResult.ok none none none,
       SignResult.ok "https://u", false⟩) = "https://u" ++ "\n" ∧
    stdoutText (uploadMain ⟨"b", some "k", 3600, none, true⟩
      ⟨CredResult.ok "a" "u" "r", SignResult.ok "https://v", ⟨2026, 1, 1, 0, 0, 0⟩, false⟩) =
      "https://v" ++ "\n" :=
  quiet_stdout_amended _ _ _ _ _ _ rfl (by decide) (by decide) rfl (by decide)
    rfl (by decide) (by decide) rfl (by decide)

theorem check_aws_credentials_calls (cr : CredResult) :
    (check_aws_credentials cr).calls = [ApiCall.getCallerIdentity] := by
  cases cr <;> rfl

/-- C1 counterexample: a quiet download invocation without `--no-check`
whose object does not exist (the existence check would get a 404) does not
exit 1 — it invokes the signing operation and exits 0, because the whole
verification block is skipped in quiet mode. -/
theorem download_existence_counterexample :
    (downloadMain ⟨"b", "k", 3600, none, true, false⟩
       ⟨CredResult.ok "a" "u" "r", HeadResult.clientError (some "404") "e404", HeadResult.err "x",
        SignResult.ok "https://x", false⟩).exitCode = 0 ∧
    usedSigning (downloadMain ⟨"b", "k", 3600, none, true, false⟩
       ⟨CredResult.ok "a" "u" "r", HeadResult.clientError (some "404") "e404", HeadResult.err "x",
        SignResult.ok "https://x", false⟩) = true := by
  decide

/-- C1 as amended: in non-quiet download invocations, if the object does
not exist and `--no-check` is absent the process exits 1 without calling
the signing operation; with `--no-check` (and a valid expiration) the
signing operation is invoked regardless of existence whenever quiet mode
is set or the credential check succeeds. -/
theorem download_existence_amended (a : DlArgs) (de : DlEnv) (m : String) :
    (a.quiet = false → a.no_check = false →
       de.headCheck = HeadResult.clientError (some "404") m →
       (downloadMain a de).exitCode = 1 ∧ usedSigning (downloadMain a de) = false) ∧
    (a.no_check = true → 1 ≤ a.expiration →
       (a.quiet = true ∨ (check_aws_credentials de.cred).ret = true) →
       usedSigning (downloadMain a de) = true) := by
  constructor
  · intro hq hnc hh
    simp only [downloadMain, hq, hnc, hh, check_object_exists]
    split
    · simp [usedSigning]
    · simp [usedSigning, check_aws_credentials_calls, isSignCall]
      split
      · simp [usedSigning, check_aws_credentials_calls, isSignCall]
      · simp [usedSigning, check_aws_credentials_calls, isSignCall, isHeadCall]
  · intro hnc he hor
    by_cases hq : a.quiet = true
    · rw [downloadMain_quiet a de hq, if_neg (by omega)]
      simp [usedSigning, finishDownload_calls, isSignCall]
    · rcases hor with hq2 | hcred
      · exact absurd hq2 hq
      · rw [Bool.not_eq_true] at hq
        simp only [downloadMain, hnc, hq, if_neg (by omega : ¬ a.expiration < 1)]
        simp only [Bool.false_eq_true, if_false, hcred]
        simp [usedSigning, finishDownload_calls, isSignCall]

/-- Witness for the amended C1: a non-quiet invocation whose object is
missing exits 1 without signing; a `--no-check` invocation with valid
credentials invokes the signing operation. -/
theorem download_existence_amended_witness :
    ((downloadMain ⟨"b", "k", 3600, none, false, false⟩
        ⟨CredResult.ok "a" "u" "r", HeadResult.clientError (some "404") "e404", HeadResult.err "x",
         SignResult.ok "https://x", false⟩).exitCode = 1 ∧
     usedSigning (downloadMain ⟨"b", "k", 3600, none, false, false⟩
        ⟨CredResult.ok "a" "u" "r", HeadResult.clientError (some "404") "e404", HeadResult.err "x",
         SignResult.ok "https://x", false⟩) = false) ∧
    usedSigning (downloadMain ⟨"b", "k", 3600, none, false, true⟩
       ⟨CredResult.ok "a" "u" "r", HeadResult.ok none none none, HeadResult.ok none none none,
        SignResult.ok "https://x", false⟩) = true :=
  ⟨(download_existence_amended ⟨"b", "k", 3600, none, false, false⟩
      ⟨CredResult.ok "a" "u" "r", HeadResult.clientError (some "404") "e404", HeadResult.err "x",
       SignResult.ok "https://x", false⟩ "e404").1 rfl rfl rfl,
   (download_existence_amended ⟨"b", "k", 3600, none, false, true⟩
      ⟨CredResult.ok "a" "u" "r", HeadResult.ok none none none, HeadResult.ok none none none,
       SignResult.ok "https://x", false⟩ "m").2 rfl (by decide) (Or.inr rfl)⟩

theorem finishDownload_events (a : DlArgs) (de : DlEnv) (ev : List OutEvent) (calls : List ApiCall) :
    ∃ t, (finishDownload a de ev calls).events = ev ++ t := by
  unfold finishDownload generate_presigned_download_url
  cases de.sign <;> simp <;> split_ifs <;> exact ⟨_, rfl⟩

theorem finishUpload_events (a : UpArgs) (ue : UpEnv) (k : String) (ev : List OutEvent)
    (calls : List ApiCall) :
    ∃ t, (finishUpload a ue k ev calls).events = ev ++ t := by
  unfold finishUpload generate_presigned_url
  cases ue.sign <;> simp <;> split_ifs <;> exact ⟨_, rfl⟩

/-- C4 counterexample: a non-quiet download invocation with expiration
604801 whose credential check fails prints the over-limit warning but
exits before the signing operation is ever invoked, so the URL is not
generated. -/
theorem overlimit_warning_counterexample :
    printedOn (downloadMain ⟨"b", "k", 604801, none, false, false⟩
       ⟨CredResult.noCredentials, HeadResult.ok none none none, HeadResult.ok none none none,
        SignResult.ok "https://x", false⟩) expWarnEvent = true ∧
    usedSigning (downloadMain ⟨"b", "k", 604801, none, false, false⟩
       ⟨CredResult.noCredentials, HeadResult.ok none none none, HeadResult.ok none none none,
        SignResult.ok "https://x", false⟩) = false := by
  decide

/-- C4 as amended: for every invocation of either script with expiration
above 604800, the warning is printed (it is the first output event) and
execution continues past validation: the signing operation is still
invoked whenever the rest of the invocation reaches it — in particular in
every quiet invocation — but not when a later check aborts the run. -/
theorem overlimit_warning_amended (a : DlArgs) (de : DlEnv) (ua : UpArgs) (ue : UpEnv)
    (h : 604800 < a.expiration) (hu : 604800 < ua.expiration) :
    (downloadMain a de).events.head? = some expWarnEvent ∧
    (uploadMain ua ue).events.head? = some expWarnEvent ∧
    (a.quiet = true → usedSigning (downloadMain a de) = true) ∧
    (ua.quiet = true → usedSigning (uploadMain ua ue) = true) := by
  have hne : ¬ a.expiration < 1 := by omega
  have hune : ¬ ua.expiration < 1 := by omega
  refine ⟨?_, ?_, ?_, ?_⟩
  · simp only [downloadMain, if_neg hne, if_pos h, expWarnEvent]
    repeat' split
    all_goals
      first
        | (obtain ⟨t, ht⟩ := finishDownload_events a de _ _
           rw [ht]; simp)
        | simp
  · simp only [uploadMain, if_neg hune, if_pos hu, expWarnEvent]
    repeat' split
    all_goals
      first
        | (obtain ⟨t, ht⟩ := finishUpload_events ua ue _ _ _
           rw [ht]; simp)
        | simp
  · intro hq
    rw [downloadMain_quiet a de hq, if_neg hne]
    simp [usedSigning, finishDownload_calls, isSignCall]
  · intro hq
    rw [uploadMain_quiet ua ue hq, if_neg hune]
    simp [usedSigning, finishUpload_calls, isSignCall]

/-- Witness for the amended C4 at concrete quiet invocations with
expiration 604801. -/
theorem overlimit_warning_amended_witness :
    (downloadMain ⟨"b", "k", 604801, none, true, false⟩
       ⟨CredResult.ok "a" "u" "r", HeadResult.ok none none none, HeadResult.ok none none none,
        SignResult.ok "https://x", false⟩).events.head? = some expWarnEvent ∧
    (uploadMain ⟨"b", some "k", 604801, none, true⟩
       ⟨CredResult.ok "a" "u" "r", SignResult.ok "https://y", ⟨2026, 1, 1, 0, 0, 0⟩, false⟩).events.head? =
      some expWarnEvent ∧
    (true = true → usedSigning (downloadMain ⟨"b", "k", 604801, none, true, false⟩
       ⟨CredResult.ok "a" "u" "r", HeadResult.ok none none none, HeadResult.ok none none none,
        SignResult.ok "https://x", false⟩) = true) ∧
    (true = true → usedSigning (uploadMain ⟨"b", some "k", 604801, none, true⟩
       ⟨CredResult.ok "a" "u" "r", SignResult.ok "https://y", ⟨2026, 1, 1, 0, 0, 0⟩, false⟩) = true) :=
  overlimit_warning_amended _ _ _ _ (by decide) (by decide)

theorem digitChar_isDigit (d : Nat) (h : d < 10) : (Nat.digitChar d).isDigit = true := by
  interval_cases d <;> rfl

theorem decList_all_digit (n : Nat) : (decList n).all Char.isDigit = true := by
  induction n using Nat.strong_induction_on with
  | _ n ih =>
    rw [decList]
    split
    · next h => simp [digitChar_isDigit n h]
    · next h =>
        simp [List.all_append, ih (n / 10) (Nat.div_lt_self (by omega) (by omega)),
          digitChar_isDigit (n % 10) (Nat.mod_lt _ (by omega))]

theorem decList_length_one (n : Nat) (h : n < 10) : (decList n).length = 1 := by
  rw [decList]; simp [h]

theorem decList_length_step (n : Nat) (h : ¬ n < 10) :
    (decList n).length = (decList (n / 10)).length + 1 := by
  rw [decList]; simp [h]

theorem decList_length_two (n : Nat) (h1 : 10 ≤ n) (h2 : n ≤ 99) : (decList n).length = 2 := by
  rw [decList_length_step n (by omega), decList_length_one (n / 10) (by omega)]

theorem decList_length_four (n : Nat) (h1 : 1000 ≤ n) (h2 : n ≤ 9999) :
    (decList n).length = 4 := by
  rw [decList_length_step n (by omega), decList_length_step (n / 10) (by omega),
      decList_length_step (n / 10 / 10) (by omega),
      decList_length_one (n / 10 / 10 / 10) (by omega)]

theorem pad2_length (n : Nat) (h : n ≤ 99) : (pad2 n).length = 2 := by
  unfold pad2; split_ifs with h'
  · simp [decList_length_one n (by omega)]
  · exact decList_length_two n (by omega) (by omega)

theorem pad2_all_digit (n : Nat) : (pad2 n).all Char.isDigit = true := by
  unfold pad2; split_ifs with h'
  · simp [decList_all_digit]
  · exact decList_all_digit n

theorem matchesDefaultKeyPattern_of_parts (s : String) (A B : List Char)
    (hs : s.toList = "uploads/file-".toList ++ (A ++ '-' :: B))
    (hA : A.length = 8) (hAd : A.all Char.isDigit = true)
    (hB : B.length = 6) (hBd : B.all Char.isDigit = true) :
    matchesDefaultKeyPattern s = true := by
  have h13 : ("uploads/file-".toList).length = 13 := by decide
  simp only [matchesDefaultKeyPattern, hs]
  rw [List.take_left' h13, List.drop_left' h13, List.take_left' hA, List.drop_left' hA]
  simp [hA, hB, hAd, hBd]

/-- C5: when `--object-key` is omitted, the upload script's default key
matches `uploads/file-<8 digits>-<6 digits>`, where the eight digits are
the year, month and day of the current local time (`%Y%m%d`) and the six
digits its hour, minute and second (`%H%M%S`), for any current local time
with a four-digit year and in-range calendar fields. -/
theorem default_object_key_pattern (t : DateTime)
    (hy1 : 1000 ≤ t.year) (hy2 : t.year ≤ 9999) (hmo : t.month ≤ 12) (hd : t.day ≤ 31)
    (hh : t.hour ≤ 23) (hmi : t.minute ≤ 59) (hs : t.second ≤ 59) :
    matchesDefaultKeyPattern (generate_default_object_key t) = true ∧
    (generate_default_object_key t).toList =
      "uploads/file-".toList ++
        ((decList t.year ++ pad2 t.month ++ pad2 t.day) ++ '-' ::
          (pad2 t.hour ++ pad2 t.minute ++ pad2 t.second)) ∧
    (decList t.year ++ pad2 t.month ++ pad2 t.day).length = 8 ∧
    (decList t.year ++ pad2 t.month ++ pad2 t.day).all Char.isDigit = true ∧
    (pad2 t.hour ++ pad2 t.minute ++ pad2 t.second).length = 6 ∧
    (pad2 t.hour ++ pad2 t.minute ++ pad2 t.second).all Char.isDigit = true := by
  have e1 : (generate_default_object_key t).toList =
      "uploads/file-".toList ++
        ((decList t.year ++ pad2 t.month ++ pad2 t.day) ++ '-' ::
          (pad2 t.hour ++ pad2 t.minute ++ pad2 t.second)) := by
    simp [generate_default_object_key, strftime_Ymd_HMS, String.toList, String.data_append]
  have e2 : (decList t.year ++ pad2 t.month ++ pad2 t.day).length = 8 := by
    simp [List.length_append, decList_length_four t.year hy1 hy2,
      pad2_length t.month (by omega), pad2_length t.day (by omega)]
  have e3 : (decList t.year ++ pad2 t.month ++ pad2 t.day).all Char.isDigit = true := by
    simp [List.all_append, decList_all_digit, pad2_all_digit]
  have e4 : (pad2 t.hour ++ pad2 t.minute ++ pad2 t.second).length = 6 := by
    simp [List.length_append, pad2_length t.hour (by omega),
      pad2_length t.minute (by omega), pad2_length t.second (by omega)]
  have e5 : (pad2 t.hour ++ pad2 t.minute ++ pad2 t.second).all Char.isDigit = true := by
    simp [List.all_append, pad2_all_digit]
  exact ⟨matchesDefaultKeyPattern_of_parts _ _ _ e1 e2 e3 e4 e5, e1, e2, e3, e4, e5⟩

/-- Witness for C5 at the concrete local time 2026-10-12 03:04:05. -/
theorem default_object_key_pattern_witness :
    matchesDefaultKeyPattern (generate_default_object_key ⟨2026, 10, 12, 3, 4, 5⟩) = true ∧
    (generate_default_object_key ⟨2026, 10, 12, 3, 4, 5⟩).toList =
      "uploads/file-".toList ++
        ((decList 2026 ++ pad2 10 ++ pad2 12) ++ '-' :: (pad2 3 ++ pad2 4 ++ pad2 5)) ∧
    (decList 2026 ++ pad2 10 ++ pad2 12).length = 8 ∧
    (decList 2026 ++ pad2 10 ++ pad2 12).all Char.isDigit = true ∧
    (pad2 3 ++ pad2 4 ++ pad2 5).length = 6 ∧
    (pad2 3 ++ pad2 4 ++ pad2 5).all Char.isDigit = true :=
  default_object_key_pattern ⟨2026, 10, 12, 3, 4, 5⟩ (by decide) (by decide) (by decide)
    (by decide) (by decide) (by decide) (by decide)
